import Mathlib

/-
Shallow embedding of the invoice-mutation and login workflow of the
nextjs-dashboard repository (source: src/README.md code blocks and
src/app/ui/invoices/errors.tsx).

Numbers: the runtime uses JS 64-bit floats; we model the numeric values as
exact rationals. The strings that matter for the claims (short decimal
literals) are represented exactly by both.
-/

namespace NextDashboard

/- ---------- Model of the JS Number(string) coercion used by z.coerce.number().
   Covers trimmed whitespace, the empty string (which coerces to 0), signed
   decimal literals with optional fraction and exponent, and 0x/0o/0b radix
   literals; none models NaN. (The non-finite literal Infinity has no rational
   value and is outside this model.) ---------- -/

def isWs (c : Char) : Bool :=
  c == ' ' || c == '\t' || c == '\n' || c == '\r'

def digitsVal (l : List Char) : Nat :=
  l.foldl (fun a c => 10 * a + (c.toNat - 48)) 0

def hexDigitVal (c : Char) : Option Nat :=
  if c.isDigit then some (c.toNat - 48)
  else if 97 ≤ c.toNat && c.toNat ≤ 102 then some (c.toNat - 87)
  else if 65 ≤ c.toNat && c.toNat ≤ 70 then some (c.toNat - 55)
  else none

def radixVal (b : Nat) (l : List Char) : Option Nat :=
  l.foldl
    (fun acc c =>
      match acc, hexDigitVal c with
      | some a, some d => if d < b then some (b * a + d) else none
      | _, _ => none)
    (some 0)

/- A parsed numeric literal is carried as an exact pair (mantissa : Int,
   scale : Nat) whose value is mantissa / 10 ^ scale; every finite value a
   JS numeric string literal denotes has this shape. -/

def parseRadix (b : Nat) (l : List Char) : Option (ℤ × ℕ) :=
  if l.isEmpty then none else (radixVal b l).map (fun n => ((n : ℤ), 0))

def splitFirstBy (p : Char → Bool) : List Char → Option (List Char × List Char)
  | [] => none
  | x :: xs =>
    if p x then some ([], xs)
    else (splitFirstBy p xs).map (fun q => (x :: q.1, q.2))

def parseUnsignedDec (l : List Char) : Option (ℤ × ℕ) :=
  let mantExp : List Char × Option (List Char) :=
    match splitFirstBy (fun c => c == 'e' || c == 'E') l with
    | none => (l, none)
    | some q => (q.1, some q.2)
  let expVal : Option (Bool × ℕ) :=
    match mantExp.2 with
    | none => some (false, 0)
    | some e =>
      let sd : Bool × List Char :=
        match e with
        | '+' :: r => (false, r)
        | '-' :: r => (true, r)
        | r => (false, r)
      if !sd.2.isEmpty && sd.2.all Char.isDigit then some (sd.1, digitsVal sd.2) else none
  let mantVal : Option (ℕ × ℕ) :=
    match splitFirstBy (fun c => c == '.') mantExp.1 with
    | none =>
      if !mantExp.1.isEmpty && mantExp.1.all Char.isDigit then
        some (digitsVal mantExp.1, 0)
      else none
    | some q =>
      if !(q.1.isEmpty && q.2.isEmpty) && q.1.all Char.isDigit && q.2.all Char.isDigit then
        some (digitsVal q.1 * 10 ^ q.2.length + digitsVal q.2, q.2.length)
      else none
  match mantVal, expVal with
  | some mk, some (false, e) => some (((mk.1 * 10 ^ e : ℕ) : ℤ), mk.2)
  | some mk, some (true, e) => some ((mk.1 : ℤ), mk.2 + e)
  | _, _ => none

def parseSignedDec (l : List Char) : Option (ℤ × ℕ) :=
  match l with
  | '+' :: r => parseUnsignedDec r
  | '-' :: r => (parseUnsignedDec r).map (fun p => (-p.1, p.2))
  | r => parseUnsignedDec r

/-- Mantissa and scale of the JS Number coercion of a string, or none for NaN. -/
def jsNumberP (s : String) : Option (ℤ × ℕ) :=
  let t := ((s.toList.dropWhile isWs).reverse.dropWhile isWs).reverse
  match t with
  | [] => some (0, 0)
  | '0' :: c :: r =>
    if c == 'x' || c == 'X' then parseRadix 16 r
    else if c == 'o' || c == 'O' then parseRadix 8 r
    else if c == 'b' || c == 'B' then parseRadix 2 r
    else parseSignedDec t
  | _ => parseSignedDec t

def decValue (p : ℤ × ℕ) : ℚ := (p.1 : ℚ) / 10 ^ p.2

/-- The rational value of the JS Number coercion of a string, or none for NaN. -/
def jsNumber (s : String) : Option ℚ :=
  (jsNumberP s).map decValue

/- ---------- Data model ---------- -/

inductive Status
  | pending
  | paid
  deriving DecidableEq

structure Invoice where
  id : String
  customerId : String
  amount : ℚ
  status : Status
  date : String
  deriving DecidableEq

structure User where
  email : String
  password : String
  deriving DecidableEq

/- ---------- Validation layer: FormSchema from /app/lib/actions.ts.
   CreateInvoice = UpdateInvoice = FormSchema.omit(id, date), so both validate
   the three fields customerId, amount, status.
   A raw form field is Option String: none models FormData.get returning null
   for an absent field. ---------- -/

structure RawForm where
  customerId : Option String
  amount : Option String
  status : Option String

/-- Field errors, as produced by zod error.flatten().fieldErrors: a key is
present (some) exactly when that field has at least one error. Matches the
TypeScript type Errors in /app/lib/actions.ts. -/
structure Errors where
  customerId : Option (List String)
  amount : Option (List String)
  status : Option (List String)
  deriving DecidableEq

/-- Validated record, the data field of a successful safeParse. -/
structure ParsedInvoiceForm where
  customerId : String
  amount : ℚ
  status : Status
  deriving DecidableEq

/-- Model of z.string with invalid_type_error. FormData.get of an absent field
gives null, which is not a string, so the custom invalid-type message fires. -/
def checkCustomerId : Option String → Except (List String) String
  | none => Except.error ["Please select a customer."]
  | some s => Except.ok s

/-- Model of z.coerce.number, which applies the JS Number() coercion to the
raw field. Number(null) is 0, so an absent field coerces to 0. -/
def coerceAmount : Option String → Option ℚ
  | none => some 0
  | some s => jsNumber s

/-- Model of z.coerce.number().gt(0, message). A NaN coercion yields the zod
default invalid-type message; a number that is not strictly greater than 0
yields the custom gt message. -/
def checkAmount (a : Option String) : Except (List String) ℚ :=
  match coerceAmount a with
  | none => Except.error ["Expected number, received nan"]
  | some q =>
    if 0 < q then Except.ok q
    else Except.error ["Please enter an amount greater than $0."]

/-- Model of z.enum(pending, paid) with invalid_type_error: null fires the
custom invalid-type message, a string outside the enum fires the default
invalid-enum-value message. -/
def checkStatus : Option String → Except (List String) Status
  | none => Except.error ["Please select an invoice status."]
  | some s =>
    if s = "pending" then Except.ok Status.pending
    else if s = "paid" then Except.ok Status.paid
    else
      Except.error
        ["Invalid enum value. Expected \x27pending\x27 | \x27paid\x27, received \x27" ++ s ++ "\x27"]

def errsOf {α : Type} : Except (List String) α → Option (List String)
  | Except.error l => some l
  | Except.ok _ => none

/-- Model of CreateInvoice.safeParse: zod checks every field and, on any
failure, flattens the per-field error lists. -/
def CreateInvoice.safeParse (form : RawForm) : Except Errors ParsedInvoiceForm :=
  match checkCustomerId form.customerId, checkAmount form.amount, checkStatus form.status with
  | Except.ok c, Except.ok a, Except.ok s =>
    Except.ok { customerId := c, amount := a, status := s }
  | rc, ra, rs =>
    Except.error { customerId := errsOf rc, amount := errsOf ra, status := errsOf rs }

/-- UpdateInvoice is the same schema as CreateInvoice (both omit id and date
from FormSchema). -/
def UpdateInvoice.safeParse : RawForm → Except Errors ParsedInvoiceForm :=
  CreateInvoice.safeParse

/- ---------- Server actions from /app/lib/actions.ts.
   Effects record, in program order, the external calls an action performs:
   the parameterized SQL statement with its bound values, revalidatePath, and
   redirect. The dbFails flag is the exogenous event of the single sql call
   throwing (connectivity loss, constraint violation, malformed id for a typed
   column); per SQL semantics an UPDATE or DELETE whose WHERE clause matches no
   row succeeds with zero rows affected, so dbFails is independent of whether
   the id exists. The db field threads the invoices table through the
   successful statement. ---------- -/

inductive Effect
  | sqlInsert (customerId : String) (amountInCents : ℚ) (status : Status) (date : String)
  | sqlUpdate (id : String) (customerId : String) (amountInCents : ℚ) (status : Status)
  | sqlDelete (id : String)
  | revalidatePath (path : String)
  | redirect (path : String)
  deriving DecidableEq

/-- Return type State of the actions: optional field errors plus an optional
message, as in /app/lib/actions.ts. -/
structure State where
  errors : Option Errors
  message : Option String
  deriving DecidableEq

/-- An action either returns a State to the form, or ends in a redirect
(redirect in Next.js throws, so nothing after it runs). -/
inductive ActionResult
  | returned (s : State)
  | redirected (path : String)
  deriving DecidableEq

structure Outcome where
  result : ActionResult
  db : List Invoice
  effects : List Effect
  deriving DecidableEq

def invoicesPath : String := "/dashboard/invoices"

/-- Model of createInvoice. today models the date computed from Date()
(external clock) and newId the database-generated row id; the prevState
argument of the source is unused by its body and omitted. -/
def createInvoice (today newId : String) (dbFails : Bool) (db : List Invoice)
    (formData : RawForm) : Outcome :=
  match CreateInvoice.safeParse formData with
  | Except.error errs =>
    { result := ActionResult.returned
        { errors := some errs, message := some "Missing Fields. Failed to Create Invoice." },
      db := db, effects := [] }
  | Except.ok d =>
    let amountInCents := d.amount * 100
    if dbFails then
      { result := ActionResult.returned
          { errors := none, message := some "Database Error: Failed to Create Invoice." },
        db := db,
        effects := [Effect.sqlInsert d.customerId amountInCents d.status today] }
    else
      { result := ActionResult.redirected invoicesPath,
        db := db ++ [{ id := newId, customerId := d.customerId, amount := amountInCents,
                       status := d.status, date := today }],
        effects := [Effect.sqlInsert d.customerId amountInCents d.status today,
                    Effect.revalidatePath invoicesPath,
                    Effect.redirect invoicesPath] }

/-- Model of updateInvoice (the prevState argument of the source is unused by
its body and omitted). -/
def updateInvoice (id : String) (dbFails : Bool) (db : List Invoice)
    (formData : RawForm) : Outcome :=
  match UpdateInvoice.safeParse formData with
  | Except.error errs =>
    { result := ActionResult.returned
        { errors := some errs, message := some "Missing Fields. Failed to Update Invoice." },
      db := db, effects := [] }
  | Except.ok d =>
    let amountInCents := d.amount * 100
    if dbFails then
      { result := ActionResult.returned
          { errors := none, message := some "Database Error: Failed to Update Invoice." },
        db := db,
        effects := [Effect.sqlUpdate id d.customerId amountInCents d.status] }
    else
      { result := ActionResult.redirected invoicesPath,
        db := db.map (fun r =>
          if r.id = id then
            { r with customerId := d.customerId, amount := amountInCents, status := d.status }
          else r),
        effects := [Effect.sqlUpdate id d.customerId amountInCents d.status,
                    Effect.revalidatePath invoicesPath,
                    Effect.redirect invoicesPath] }

/-- Model of deleteInvoice: the DELETE statement and revalidatePath both sit
inside the try block; on success the action returns the message Deleted
Invoice. (it does not redirect), and on a thrown sql call it returns the
database-error message without revalidating. -/
def deleteInvoice (id : String) (dbFails : Bool) (db : List Invoice) : Outcome :=
  if dbFails then
    { result := ActionResult.returned
        { errors := none, message := some "Database Error: Failed to Delete Invoice." },
      db := db, effects := [Effect.sqlDelete id] }
  else
    { result := ActionResult.returned
        { errors := none, message := some "Deleted Invoice." },
      db := db.filter (fun r => r.id != id),
      effects := [Effect.sqlDelete id, Effect.revalidatePath invoicesPath] }

/- ---------- Login path: authenticate from /app/lib/actions.ts and the
   Credentials authorize callback from /auth.ts. ---------- -/

/-- Outcome of the awaited signIn collaborator as seen by authenticate: it
returns normally, throws an AuthError carrying a type string, or throws some
other error (which includes the redirect thrown on successful sign-in). -/
inductive SignInOutcome
  | success
  | authError (ty : String)
  | otherError (e : String)
  deriving DecidableEq

/-- Model of authenticate: ok none models returning undefined, ok (some msg)
a returned error message, and Except.error the rethrow of a non-AuthError. -/
def authenticate (signInResult : SignInOutcome) : Except String (Option String) :=
  match signInResult with
  | SignInOutcome.success => Except.ok none
  | SignInOutcome.authError ty =>
    if ty = "CredentialsSignin" then Except.ok (some "Invalid credentials.")
    else Except.ok (some "Something went wrong.")
  | SignInOutcome.otherError e => Except.error e

structure Credentials where
  email : Option String
  password : Option String

/-- Result of authorize plus the list of emails it looked up in the users
table, to observe whether the database was queried. -/
structure AuthorizeOutcome where
  result : Option User
  dbLookups : List String
  deriving DecidableEq

/-- Model of getUser: SELECT from users by email, first matching row. -/
def getUser (users : List User) (email : String) : Option User :=
  users.find? (fun u => u.email == email)

/-- Model of the Credentials authorize callback: parse credentials with
z.object(email: z.string().email(), password: z.string().min(6)); on parse
success look the user up by email, reject absent users, compare the password
with bcrypt, and return the user only on a match; every other path returns
null. emailOk stands for the zod email-syntax check and bcryptCompare for
bcrypt.compare, both external collaborators. -/
def authorize (emailOk : String → Bool) (bcryptCompare : String → String → Bool)
    (users : List User) (credentials : Credentials) : AuthorizeOutcome :=
  match credentials.email, credentials.password with
  | some email, some password =>
    if emailOk email ∧ 6 ≤ password.length then
      match getUser users email with
      | none => { result := none, dbLookups := [email] }
      | some user =>
        if bcryptCompare password user.password then
          { result := some user, dbLookups := [email] }
        else
          { result := none, dbLookups := [email] }
    else { result := none, dbLookups := [] }
  | _, _ => { result := none, dbLookups := [] }

/- ---------- ErrorMessages component from /app/ui/invoices/errors.tsx. ---------- -/

/-- Rendered markup: a div with an id attribute and children, or a paragraph
of text. -/
inductive Node
  | div (idAttr : String) (children : List Node)
  | p (text : String)

/-- The keys of the Errors type (keyof Errors). -/
inductive ErrorsKey
  | customerId
  | amount
  | status
  deriving DecidableEq

def Errors.get (e : Errors) : ErrorsKey → Option (List String)
  | ErrorsKey.customerId => e.customerId
  | ErrorsKey.amount => e.amount
  | ErrorsKey.status => e.status

def ErrorsKey.name : ErrorsKey → String
  | ErrorsKey.customerId => "customerId"
  | ErrorsKey.amount => "amount"
  | ErrorsKey.status => "status"

/-- Model of the ErrorMessages component: errMsg is [] when errors is
undefined, else errors[id] ?? []; the output is a div holding one paragraph
per error string, in order. -/
def ErrorMessages (errors : Option Errors) (id : ErrorsKey) : Node :=
  let errMsg : List String :=
    match errors with
    | none => []
    | some e => (e.get id).getD []
  Node.div (id.name ++ "-error") (errMsg.map Node.p)

/- ---------- Edit page from /dashboard/invoices/[id]/edit/page.tsx. ---------- -/

/-- Modelled from the spec: fetchInvoiceById lives in /app/lib/data.ts, whose
body is not included in the source; per the data model and the not-found
design it returns the invoice row with the requested identifier, or nothing
when no row matches. -/
def fetchInvoiceById (db : List Invoice) (id : String) : Option Invoice :=
  db.find? (fun r => r.id == id)

/-- What the edit route renders: the dedicated not-found view (notFound takes
precedence over error.tsx), the edit form on the fetched invoice, or the
generic catch-all error boundary (when a fetch throws). -/
inductive RenderResult
  | notFoundView
  | editForm (invoice : Invoice)
  | errorBoundary
  deriving DecidableEq

/-- Model of the edit Page: await fetchInvoiceById, render notFound when no
invoice came back, otherwise render the form; a thrown fetch (dbFails)
surfaces at the route error boundary. -/
def Page (dbFails : Bool) (db : List Invoice) (id : String) : RenderResult :=
  if dbFails then RenderResult.errorBoundary
  else
    match fetchInvoiceById db id with
    | none => RenderResult.notFoundView
    | some invoice => RenderResult.editForm invoice

/- ---------- Helper lemmas ---------- -/

theorem decValue_pos (p : ℤ × ℕ) : 0 < decValue p ↔ 0 < p.1 := by
  have hb : (0 : ℚ) < 10 ^ p.2 := by positivity
  unfold decValue
  rw [div_pos_iff]
  simp [hb, hb.not_lt, Int.cast_pos]

theorem coerceAmount_evalP (s : String) (p : ℤ × ℕ) (h : jsNumberP s = some p) :
    coerceAmount (some s) = some (decValue p) := by
  simp only [coerceAmount, jsNumber, h, Option.map_some']

theorem checkAmount_eval (s : String) (m : ℤ) (k : ℕ) (h : jsNumberP s = some (m, k)) :
    checkAmount (some s) =
      if 0 < m then Except.ok (decValue (m, k))
      else Except.error ["Please enter an amount greater than $0."] := by
  unfold checkAmount
  rw [coerceAmount_evalP s (m, k) h]
  show (if 0 < decValue (m, k) then Except.ok (decValue (m, k))
        else Except.error ["Please enter an amount greater than $0."]) =
      if 0 < m then Except.ok (decValue (m, k))
      else Except.error ["Please enter an amount greater than $0."]
  exact if_congr (decValue_pos (m, k)) rfl rfl

theorem checkAmount_nan (s : String) (h : jsNumberP s = none) :
    checkAmount (some s) = Except.error ["Expected number, received nan"] := by
  have hca : coerceAmount (some s) = none := by
    simp only [coerceAmount, jsNumber, h, Option.map_none']
  unfold checkAmount
  rw [hca]

theorem checkAmount_ok_pos (a : Option String) (q : ℚ) (h : checkAmount a = Except.ok q) :
    0 < q := by
  unfold checkAmount at h
  split at h
  · simp at h
  · rename_i v
    split_ifs at h with hv
    injection h with h1
    subst h1
    exact hv

theorem safeParse_ok_inv (form : RawForm) (r : ParsedInvoiceForm)
    (h : CreateInvoice.safeParse form = Except.ok r) :
    checkCustomerId form.customerId = Except.ok r.customerId ∧
    checkAmount form.amount = Except.ok r.amount ∧
    checkStatus form.status = Except.ok r.status := by
  unfold CreateInvoice.safeParse at h
  cases hc : checkCustomerId form.customerId <;>
    cases ha : checkAmount form.amount <;>
      cases hs : checkStatus form.status <;>
        rw [hc, ha, hs] at h
  all_goals try exact (Except.noConfusion h)
  cases h
  exact ⟨rfl, rfl, rfl⟩

theorem safeParse_error_of_amount (form : RawForm) (l : List String)
    (h : checkAmount form.amount = Except.error l) :
    ∃ errs, CreateInvoice.safeParse form = Except.error errs ∧ errs.amount = some l := by
  unfold CreateInvoice.safeParse
  cases hc : checkCustomerId form.customerId <;>
    cases hs : checkStatus form.status <;>
      rw [h] <;> exact ⟨_, rfl, rfl⟩

theorem safeParse_error_of_status (form : RawForm) (l : List String)
    (h : checkStatus form.status = Except.error l) :
    ∃ errs, CreateInvoice.safeParse form = Except.error errs ∧ errs.status = some l := by
  unfold CreateInvoice.safeParse
  cases hc : checkCustomerId form.customerId <;>
    cases ha : checkAmount form.amount <;>
      rw [h] <;> exact ⟨_, rfl, rfl⟩

theorem checkAmount_good : checkAmount (some "10.50") = Except.ok (21 / 2) := by
  rw [checkAmount_eval "10.50" 1050 2 (by decide), if_pos (by decide : (0 : ℤ) < 1050)]
  norm_num [decValue]

theorem checkAmount_zero :
    checkAmount (some "0") = Except.error ["Please enter an amount greater than $0."] := by
  rw [checkAmount_eval "0" 0 0 (by decide), if_neg (by decide : ¬ (0 : ℤ) < 0)]

theorem checkAmount_tiny : checkAmount (some "0.001") = Except.ok (1 / 1000) := by
  rw [checkAmount_eval "0.001" 1 3 (by decide), if_pos (by decide : (0 : ℤ) < 1)]
  norm_num [decValue]

theorem safeParse_good :
    CreateInvoice.safeParse
        { customerId := some "abc", amount := some "10.50", status := some "pending" } =
      Except.ok { customerId := "abc", amount := 21 / 2, status := Status.pending } := by
  unfold CreateInvoice.safeParse
  rw [show checkCustomerId (some "abc") = Except.ok "abc" from rfl, checkAmount_good,
      show checkStatus (some "pending") = Except.ok Status.pending from rfl]

theorem safeParse_tiny :
    CreateInvoice.safeParse
        { customerId := some "abc", amount := some "0.001", status := some "pending" } =
      Except.ok { customerId := "abc", amount := 1 / 1000, status := Status.pending } := by
  unfold CreateInvoice.safeParse
  rw [show checkCustomerId (some "abc") = Except.ok "abc" from rfl, checkAmount_tiny,
      show checkStatus (some "pending") = Except.ok Status.pending from rfl]

theorem safeParse_zero :
    CreateInvoice.safeParse
        { customerId := some "abc", amount := some "0", status := some "pending" } =
      Except.error
        { customerId := none, amount := some ["Please enter an amount greater than $0."],
          status := none } := by
  unfold CreateInvoice.safeParse
  rw [show checkCustomerId (some "abc") = Except.ok "abc" from rfl, checkAmount_zero,
      show checkStatus (some "pending") = Except.ok Status.pending from rfl]
  rfl

/- ---------- Claim theorems ---------- -/

/-- C1 counterexample: the raw amount string 0.001 is accepted by validation
(0.001 is greater than 0) and reaches the persistence step of createInvoice,
yet the value bound into the INSERT statement, amount * 100 = 1/10, is not an
integer: validation does not enforce integrality of the cents. -/
theorem C1_counterexample :
    CreateInvoice.safeParse
        { customerId := some "abc", amount := some "0.001", status := some "pending" } =
      Except.ok { customerId := "abc", amount := 1 / 1000, status := Status.pending } ∧
    (createInvoice "2026-10-12" "id1" false []
        { customerId := some "abc", amount := some "0.001", status := some "pending" }).effects =
      [Effect.sqlInsert "abc" (1 / 10) Status.pending "2026-10-12",
       Effect.revalidatePath invoicesPath, Effect.redirect invoicesPath] ∧
    ¬ ∃ n : ℤ, ((1 : ℚ) / 10) = (n : ℚ) := by
  refine ⟨safeParse_tiny, ?_, ?_⟩
  · unfold createInvoice
    rw [safeParse_tiny]
    norm_num
  · rintro ⟨n, hn⟩
    rw [div_eq_iff (by norm_num : (10 : ℚ) ≠ 0)] at hn
    have h1 : (1 : ℤ) = n * 10 := by exact_mod_cast hn
    omega

/-- C1 (amended): for every raw form accepted by validation, the amount value
bound into the INSERT and UPDATE statements is amount * 100 and it is strictly
positive; validation does not force it to be an integer (it is one exactly when
the accepted amount has at most two decimal places). -/
theorem C1_amended (today newId id : String) (dbFails : Bool) (db : List Invoice)
    (form : RawForm) (r : ParsedInvoiceForm)
    (h : CreateInvoice.safeParse form = Except.ok r) :
    0 < r.amount * 100 ∧
    (createInvoice today newId dbFails db form).effects.head? =
      some (Effect.sqlInsert r.customerId (r.amount * 100) r.status today) ∧
    (updateInvoice id dbFails db form).effects.head? =
      some (Effect.sqlUpdate id r.customerId (r.amount * 100) r.status) := by
  obtain ⟨hc, ha, hs⟩ := safeParse_ok_inv form r h
  refine ⟨?_, ?_, ?_⟩
  · exact mul_pos (checkAmount_ok_pos form.amount r.amount ha) (by norm_num)
  · unfold createInvoice
    rw [h]
    cases dbFails <;> rfl
  · unfold updateInvoice UpdateInvoice.safeParse
    rw [h]
    cases dbFails <;> rfl

/-- Witness for C1 (amended) at the concrete accepted form with amount 10.50. -/
theorem C1_amended_witness :
    0 < ((21 : ℚ) / 2) * 100 ∧
    (createInvoice "2026-10-12" "id1" false []
        { customerId := some "abc", amount := some "10.50", status := some "pending" }).effects.head? =
      some (Effect.sqlInsert "abc" ((21 : ℚ) / 2 * 100) Status.pending "2026-10-12") ∧
    (updateInvoice "id0" false []
        { customerId := some "abc", amount := some "10.50", status := some "pending" }).effects.head? =
      some (Effect.sqlUpdate "id0" "abc" ((21 : ℚ) / 2 * 100) Status.pending) :=
  C1_amended "2026-10-12" "id1" "id0" false []
    { customerId := some "abc", amount := some "10.50", status := some "pending" }
    { customerId := "abc", amount := 21 / 2, status := Status.pending } safeParse_good

/-- C5: whenever the amount field coerces to NaN or to a value not greater than
zero, validation returns a failure with a non-empty error list under the amount
key, and neither createInvoice nor updateInvoice performs any external call; in
particular the SQL statement is never invoked. -/
theorem C5_invalid_amount (today newId id : String) (dbFails : Bool) (db : List Invoice)
    (form : RawForm)
    (h : coerceAmount form.amount = none ∨ ∃ q, coerceAmount form.amount = some q ∧ q ≤ 0) :
    ∃ errs l, CreateInvoice.safeParse form = Except.error errs ∧
      errs.amount = some l ∧ l ≠ [] ∧
      (createInvoice today newId dbFails db form).effects = [] ∧
      (updateInvoice id dbFails db form).effects = [] := by
  have hex : ∃ l, checkAmount form.amount = Except.error l ∧ l ≠ [] := by
    unfold checkAmount
    rcases h with h | ⟨q, hq, hq0⟩
    · rw [h]
      exact ⟨_, rfl, by simp⟩
    · rw [hq]
      show ∃ l, (if 0 < q then Except.ok q
          else Except.error ["Please enter an amount greater than $0."]) =
        Except.error l ∧ l ≠ []
      rw [if_neg (not_lt.mpr hq0)]
      exact ⟨_, rfl, by simp⟩
  obtain ⟨l, hl, hne⟩ := hex
  obtain ⟨errs, hp, hpa⟩ := safeParse_error_of_amount form l hl
  refine ⟨errs, l, hp, hpa, hne, ?_, ?_⟩
  · unfold createInvoice
    rw [hp]
  · unfold updateInvoice UpdateInvoice.safeParse
    rw [hp]

/-- Witness for C5 at the concrete rejected form with amount -3. -/
theorem C5_invalid_amount_witness :
    ∃ errs l,
      CreateInvoice.safeParse
          { customerId := some "abc", amount := some "-3", status := some "pending" } =
        Except.error errs ∧
      errs.amount = some l ∧ l ≠ [] ∧
      (createInvoice "2026-10-12" "id1" false []
          { customerId := some "abc", amount := some "-3", status := some "pending" }).effects = [] ∧
      (updateInvoice "id0" false []
          { customerId := some "abc", amount := some "-3", status := some "pending" }).effects = [] :=
  C5_invalid_amount "2026-10-12" "id1" "id0" false []
    { customerId := some "abc", amount := some "-3", status := some "pending" }
    (Or.inr ⟨-3, by rw [coerceAmount_evalP "-3" (-3, 0) (by decide)]; norm_num [decValue],
      by norm_num⟩)

/-- C6: on input customerId abc, amount 10.50, status pending, validation
succeeds with amount 21/2 dollars, and createInvoice binds exactly the integer
1050 cents into the INSERT and stores it; with amount 0 instead, validation
fails with exactly the error mapping whose only key is amount, carrying the
message Please enter an amount greater than $0. -/
theorem C6_examples :
    CreateInvoice.safeParse
        { customerId := some "abc", amount := some "10.50", status := some "pending" } =
      Except.ok { customerId := "abc", amount := 21 / 2, status := Status.pending } ∧
    (createInvoice "2026-10-12" "id1" false []
        { customerId := some "abc", amount := some "10.50", status := some "pending" }).effects.head? =
      some (Effect.sqlInsert "abc" 1050 Status.pending "2026-10-12") ∧
    (createInvoice "2026-10-12" "id1" false []
        { customerId := some "abc", amount := some "10.50", status := some "pending" }).db =
      [{ id := "id1", customerId := "abc", amount := 1050, status := Status.pending,
         date := "2026-10-12" }] ∧
    CreateInvoice.safeParse
        { customerId := some "abc", amount := some "0", status := some "pending" } =
      Except.error
        { customerId := none, amount := some ["Please enter an amount greater than $0."],
          status := none } := by
  refine ⟨safeParse_good, ?_, ?_, safeParse_zero⟩ <;>
    · unfold createInvoice
      rw [safeParse_good]
      norm_num

/-- C7: every form whose status field is absent or holds a string other than
pending or paid is rejected by validation, with a non-empty error list under
the status key. -/
theorem C7_status_rejected (form : RawForm)
    (h : ∀ s, form.status = some s → s ≠ "pending" ∧ s ≠ "paid") :
    ∃ errs l, CreateInvoice.safeParse form = Except.error errs ∧
      errs.status = some l ∧ l ≠ [] := by
  have hex : ∃ l, checkStatus form.status = Except.error l ∧ l ≠ [] := by
    cases hst : form.status with
    | none => exact ⟨_, rfl, by simp⟩
    | some s =>
      obtain ⟨h1, h2⟩ := h s hst
      refine ⟨["Invalid enum value. Expected \x27pending\x27 | \x27paid\x27, received \x27"
        ++ s ++ "\x27"], ?_, by simp⟩
      simp only [checkStatus]
      rw [if_neg h1, if_neg h2]
  obtain ⟨l, hl, hne⟩ := hex
  obtain ⟨errs, hp, hps⟩ := safeParse_error_of_status form l hl
  exact ⟨errs, l, hp, hps, hne⟩

/-- Witness for C7 at the concrete rejected status draft. -/
theorem C7_status_rejected_witness :
    ∃ errs l,
      CreateInvoice.safeParse
          { customerId := some "abc", amount := some "10.50", status := some "draft" } =
        Except.error errs ∧
      errs.status = some l ∧ l ≠ [] :=
  C7_status_rejected
    { customerId := some "abc", amount := some "10.50", status := some "draft" }
    (fun s hs => by
      injection hs with h1
      subst h1
      exact ⟨by decide, by decide⟩)

/-- C2 counterexample: with the database reachable and holding no row at all,
deleting the identifier missing1 is not reported as a persistence failure: the
DELETE statement matches zero rows and succeeds, the action returns the success
message Deleted Invoice., and the cache-invalidation hook does run. -/
theorem C2_counterexample :
    deleteInvoice "missing1" false [] =
      { result := ActionResult.returned { errors := none, message := some "Deleted Invoice." },
        db := [],
        effects := [Effect.sqlDelete "missing1", Effect.revalidatePath invoicesPath] } := rfl

/-- C2 (amended): deleting an identifier with no matching row does not crash and
is not a failure: the DELETE matches zero rows, the action returns the success
message Deleted Invoice., leaves the table unchanged, and runs the
cache-invalidation hook; deleteInvoice never redirects. The persistence-failure
message arises only when the database call itself throws, and in that case
neither hook runs. -/
theorem C2_amended (id : String) (db : List Invoice) (h : ∀ r ∈ db, r.id ≠ id) :
    (deleteInvoice id false db).result =
      ActionResult.returned { errors := none, message := some "Deleted Invoice." } ∧
    (deleteInvoice id false db).db = db ∧
    (deleteInvoice id false db).effects =
      [Effect.sqlDelete id, Effect.revalidatePath invoicesPath] ∧
    (∀ p, Effect.redirect p ∉ (deleteInvoice id false db).effects) ∧
    (deleteInvoice id true db).result =
      ActionResult.returned
        { errors := none, message := some "Database Error: Failed to Delete Invoice." } ∧
    (∀ p, Effect.revalidatePath p ∉ (deleteInvoice id true db).effects ∧
      Effect.redirect p ∉ (deleteInvoice id true db).effects) := by
  refine ⟨rfl, ?_, rfl, ?_, rfl, ?_⟩
  · show db.filter (fun r => r.id != id) = db
    rw [List.filter_eq_self]
    intro r hr
    simpa [bne_iff_ne] using h r hr
  · intro p
    simp [deleteInvoice]
  · intro p
    constructor <;> simp [deleteInvoice]

/-- Witness for C2 (amended) at the empty table, where no row matches. -/
theorem C2_amended_witness :
    (deleteInvoice "missing2" false []).result =
      ActionResult.returned { errors := none, message := some "Deleted Invoice." } ∧
    (deleteInvoice "missing2" false []).db = [] ∧
    (deleteInvoice "missing2" false []).effects =
      [Effect.sqlDelete "missing2", Effect.revalidatePath invoicesPath] ∧
    (∀ p, Effect.redirect p ∉ (deleteInvoice "missing2" false []).effects) ∧
    (deleteInvoice "missing2" true []).result =
      ActionResult.returned
        { errors := none, message := some "Database Error: Failed to Delete Invoice." } ∧
    (∀ p, Effect.revalidatePath p ∉ (deleteInvoice "missing2" true []).effects ∧
      Effect.redirect p ∉ (deleteInvoice "missing2" true []).effects) :=
  C2_amended "missing2" [] (by simp)

/-- C3 counterexample: deleteInvoice is a mutation action whose persistence step
succeeds here, yet the redirect hook does not fire after the cache-invalidation
hook: its effect trace ends after revalidatePath and contains no redirect. -/
theorem C3_counterexample :
    (deleteInvoice "a" false []).result =
      ActionResult.returned { errors := none, message := some "Deleted Invoice." } ∧
    (deleteInvoice "a" false []).effects =
      [Effect.sqlDelete "a", Effect.revalidatePath invoicesPath] ∧
    Effect.redirect invoicesPath ∉ (deleteInvoice "a" false []).effects := by
  refine ⟨rfl, rfl, ?_⟩
  simp [deleteInvoice, invoicesPath]

/-- C3 (amended): for createInvoice and updateInvoice the claim holds: on
successful persistence the cache-invalidation hook and then the redirect hook
fire in that order, and on validation or persistence failure neither hook fires
and the caller receives the structured error State. deleteInvoice has no
validation step and never redirects: on success only the cache-invalidation
hook fires and a success message is returned; on persistence failure neither
hook fires and the caller receives the error message. -/
theorem C3_amended (today newId id : String) (db : List Invoice) (form : RawForm) :
    (∀ r, CreateInvoice.safeParse form = Except.ok r →
      (createInvoice today newId false db form).effects =
        [Effect.sqlInsert r.customerId (r.amount * 100) r.status today,
         Effect.revalidatePath invoicesPath, Effect.redirect invoicesPath] ∧
      (createInvoice today newId false db form).result =
        ActionResult.redirected invoicesPath ∧
      (updateInvoice id false db form).effects =
        [Effect.sqlUpdate id r.customerId (r.amount * 100) r.status,
         Effect.revalidatePath invoicesPath, Effect.redirect invoicesPath] ∧
      (updateInvoice id false db form).result = ActionResult.redirected invoicesPath) ∧
    (∀ errs dbFails, CreateInvoice.safeParse form = Except.error errs →
      (createInvoice today newId dbFails db form).effects = [] ∧
      (createInvoice today newId dbFails db form).result =
        ActionResult.returned
          { errors := some errs, message := some "Missing Fields. Failed to Create Invoice." } ∧
      (updateInvoice id dbFails db form).effects = [] ∧
      (updateInvoice id dbFails db form).result =
        ActionResult.returned
          { errors := some errs, message := some "Missing Fields. Failed to Update Invoice." }) ∧
    (∀ r, CreateInvoice.safeParse form = Except.ok r →
      (∀ p, Effect.revalidatePath p ∉ (createInvoice today newId true db form).effects ∧
        Effect.redirect p ∉ (createInvoice today newId true db form).effects ∧
        Effect.revalidatePath p ∉ (updateInvoice id true db form).effects ∧
        Effect.redirect p ∉ (updateInvoice id true db form).effects) ∧
      (createInvoice today newId true db form).result =
        ActionResult.returned
          { errors := none, message := some "Database Error: Failed to Create Invoice." } ∧
      (updateInvoice id true db form).result =
        ActionResult.returned
          { errors := none, message := some "Database Error: Failed to Update Invoice." }) ∧
    ((deleteInvoice id false db).effects =
      [Effect.sqlDelete id, Effect.revalidatePath invoicesPath] ∧
     (∀ p, Effect.redirect p ∉ (deleteInvoice id false db).effects) ∧
     (deleteInvoice id false db).result =
       ActionResult.returned { errors := none, message := some "Deleted Invoice." } ∧
     (∀ p, Effect.revalidatePath p ∉ (deleteInvoice id true db).effects ∧
       Effect.redirect p ∉ (deleteInvoice id true db).effects) ∧
     (deleteInvoice id true db).result =
       ActionResult.returned
         { errors := none, message := some "Database Error: Failed to Delete Invoice." }) := by
  refine ⟨?_, ?_, ?_, ?_⟩
  · intro r hr
    unfold createInvoice updateInvoice UpdateInvoice.safeParse
    rw [hr]
    exact ⟨rfl, rfl, rfl, rfl⟩
  · intro errs dbFails herrs
    unfold createInvoice updateInvoice UpdateInvoice.safeParse
    rw [herrs]
    exact ⟨rfl, rfl, rfl, rfl⟩
  · intro r hr
    have hce : (createInvoice today newId true db form).effects =
        [Effect.sqlInsert r.customerId (r.amount * 100) r.status today] := by
      unfold createInvoice
      rw [hr]
      rfl
    have hue : (updateInvoice id true db form).effects =
        [Effect.sqlUpdate id r.customerId (r.amount * 100) r.status] := by
      unfold updateInvoice UpdateInvoice.safeParse
      rw [hr]
      rfl
    refine ⟨?_, ?_, ?_⟩
    · intro p
      rw [hce, hue]
      refine ⟨?_, ?_, ?_, ?_⟩ <;> simp
    · unfold createInvoice
      rw [hr]
      rfl
    · unfold updateInvoice UpdateInvoice.safeParse
      rw [hr]
      rfl
  · refine ⟨rfl, ?_, rfl, ?_, rfl⟩
    · intro p
      simp [deleteInvoice]
    · intro p
      constructor <;> simp [deleteInvoice]

/-- Witness for C3 (amended): the success branch of create and update at a
concrete accepted form. -/
theorem C3_amended_witness :
    (createInvoice "2026-10-12" "id1" false []
        { customerId := some "abc", amount := some "10.50", status := some "pending" }).effects =
      [Effect.sqlInsert "abc" ((21 : ℚ) / 2 * 100) Status.pending "2026-10-12",
       Effect.revalidatePath invoicesPath, Effect.redirect invoicesPath] ∧
    (createInvoice "2026-10-12" "id1" false []
        { customerId := some "abc", amount := some "10.50", status := some "pending" }).result =
      ActionResult.redirected invoicesPath ∧
    (updateInvoice "id0" false []
        { customerId := some "abc", amount := some "10.50", status := some "pending" }).effects =
      [Effect.sqlUpdate "id0" "abc" ((21 : ℚ) / 2 * 100) Status.pending,
       Effect.revalidatePath invoicesPath, Effect.redirect invoicesPath] ∧
    (updateInvoice "id0" false []
        { customerId := some "abc", amount := some "10.50", status := some "pending" }).result =
      ActionResult.redirected invoicesPath :=
  (C3_amended "2026-10-12" "id1" "id0" []
      { customerId := some "abc", amount := some "10.50", status := some "pending" }).1
    { customerId := "abc", amount := 21 / 2, status := Status.pending } safeParse_good

/-- C4: authenticate returns the literal Invalid credentials. exactly when the
signIn collaborator throws an AuthError of type CredentialsSignin, returns the
literal Something went wrong. for an AuthError of any other type, and rethrows
every non-AuthError; and with a correct email but a wrong password the
authorize callback returns null, so no session is established. -/
theorem C4_authenticate :
    (∀ o, authenticate o = Except.ok (some "Invalid credentials.") ↔
      o = SignInOutcome.authError "CredentialsSignin") ∧
    (∀ ty, ty ≠ "CredentialsSignin" →
      authenticate (SignInOutcome.authError ty) = Except.ok (some "Something went wrong.")) ∧
    (∀ e, authenticate (SignInOutcome.otherError e) = Except.error e) ∧
    (∀ emailOk bc users creds email password user,
      creds.email = some email → creds.password = some password →
      emailOk email = true → 6 ≤ password.length →
      getUser users email = some user → bc password user.password = false →
      (authorize emailOk bc users creds).result = none) := by
  refine ⟨?_, ?_, ?_, ?_⟩
  · intro o
    cases o with
    | success => simp [authenticate]
    | authError ty =>
      by_cases hty : ty = "CredentialsSignin"
      · subst hty
        simp [authenticate]
      · simp only [authenticate, if_neg hty]
        constructor
        · intro hcontra
          injection hcontra with h1
          injection h1 with h2
          exact absurd h2 (by decide)
        · intro hcontra
          injection hcontra with h2
          exact absurd h2 hty
    | otherError e => simp [authenticate]
  · intro ty hty
    simp [authenticate, hty]
  · intro e
    rfl
  · intro emailOk bc users creds email password user hem hpw hok hlen hgu hbc
    unfold authorize
    rw [hem, hpw]
    show ((if emailOk email ∧ 6 ≤ password.length then _ else _ : AuthorizeOutcome)).result = none
    rw [if_pos ⟨by rw [hok], hlen⟩, hgu]
    show ((if bc password user.password then _ else _ : AuthorizeOutcome)).result = none
    rw [if_neg (by simp [hbc])]

/-- Witness for C4 at concrete sign-in outcomes and a concrete wrong-password
login. -/
theorem C4_authenticate_witness :
    authenticate (SignInOutcome.authError "CredentialsSignin") =
      Except.ok (some "Invalid credentials.") ∧
    authenticate (SignInOutcome.authError "AccessDenied") =
      Except.ok (some "Something went wrong.") ∧
    authenticate (SignInOutcome.otherError "redirect") = Except.error "redirect" ∧
    (authorize (fun _ => true) (fun _ _ => false)
        [{ email := "user@nextmail.com", password := "hashed" }]
        { email := some "user@nextmail.com", password := some "wrongpw" }).result = none :=
  ⟨(C4_authenticate.1 (SignInOutcome.authError "CredentialsSignin")).mpr rfl,
   C4_authenticate.2.1 "AccessDenied" (by decide),
   C4_authenticate.2.2.1 "redirect",
   C4_authenticate.2.2.2 (fun _ => true) (fun _ _ => false)
     [{ email := "user@nextmail.com", password := "hashed" }]
     { email := some "user@nextmail.com", password := some "wrongpw" }
     "user@nextmail.com" "wrongpw" { email := "user@nextmail.com", password := "hashed" }
     rfl rfl rfl (by decide) rfl rfl⟩

/-- C8: with the database reachable, requesting the edit page for an invoice
identifier with no matching row renders the dedicated not-found view, which is
distinct from the generic error boundary; for an identifier with a matching row
the page renders the edit form on that invoice. -/
theorem C8_edit_not_found (db : List Invoice) (id : String) :
    (fetchInvoiceById db id = none →
      Page false db id = RenderResult.notFoundView ∧
      Page false db id ≠ RenderResult.errorBoundary) ∧
    (∀ invoice, fetchInvoiceById db id = some invoice →
      Page false db id = RenderResult.editForm invoice) := by
  constructor
  · intro h
    constructor
    · simp [Page, h]
    · simp [Page, h]
  · intro invoice h
    simp [Page, h]

/-- Witness for C8: an empty table renders not-found, a matching row renders
the edit form. -/
theorem C8_edit_not_found_witness :
    (Page false [] "x" = RenderResult.notFoundView ∧
      Page false [] "x" ≠ RenderResult.errorBoundary) ∧
    Page false
        [{ id := "i1", customerId := "c", amount := 1050, status := Status.paid,
           date := "2026-01-01" }] "i1" =
      RenderResult.editForm
        { id := "i1", customerId := "c", amount := 1050, status := Status.paid,
          date := "2026-01-01" } :=
  ⟨(C8_edit_not_found [] "x").1 rfl,
   (C8_edit_not_found
       [{ id := "i1", customerId := "c", amount := 1050, status := Status.paid,
          date := "2026-01-01" }] "i1").2
     { id := "i1", customerId := "c", amount := 1050, status := Status.paid,
       date := "2026-01-01" } rfl⟩

/-- C9: the ErrorMessages component renders the container div with exactly one
paragraph per string of the entry of errors at id, in the same order; when
errors is undefined or has no entry at id it renders the container with zero
paragraphs. The component is a total function of its inputs, so it never
throws. -/
theorem C9_error_messages (errors : Option Errors) (id : ErrorsKey) :
    (∀ e l, errors = some e → e.get id = some l →
      ErrorMessages errors id = Node.div (id.name ++ "-error") (l.map Node.p)) ∧
    (errors = none ∨ (∃ e, errors = some e ∧ e.get id = none) →
      ErrorMessages errors id = Node.div (id.name ++ "-error") []) := by
  constructor
  · rintro e l rfl hl
    simp [ErrorMessages, hl]
  · rintro (rfl | ⟨e, rfl, he⟩)
    · simp [ErrorMessages]
    · simp [ErrorMessages, he]

/-- Witness for C9: two error strings render as two paragraphs in order, and an
undefined errors value renders the empty container. -/
theorem C9_error_messages_witness :
    ErrorMessages
        (some { customerId := none, amount := some ["msg one", "msg two"], status := none })
        ErrorsKey.amount =
      Node.div "amount-error" [Node.p "msg one", Node.p "msg two"] ∧
    ErrorMessages none ErrorsKey.amount = Node.div "amount-error" [] :=
  ⟨(C9_error_messages
        (some { customerId := none, amount := some ["msg one", "msg two"], status := none })
        ErrorsKey.amount).1
      { customerId := none, amount := some ["msg one", "msg two"], status := none }
      ["msg one", "msg two"] rfl rfl,
   (C9_error_messages none ErrorsKey.amount).2 (Or.inl rfl)⟩

/-- C10: the authorize callback returns null without querying the users table
whenever the email field is missing or rejected by the email-syntax check, or
the password field is missing or shorter than 6 characters; and when the
credentials parse but no user record exists for the email, it returns null
after the single lookup. -/
theorem C10_authorize (emailOk : String → Bool) (bc : String → String → Bool)
    (users : List User) (creds : Credentials) :
    ((creds.email = none ∨ creds.password = none ∨
      (∀ e, creds.email = some e → emailOk e = false) ∨
      (∀ p, creds.password = some p → p.length < 6)) →
      authorize emailOk bc users creds = { result := none, dbLookups := [] }) ∧
    (∀ e p, creds.email = some e → creds.password = some p →
      emailOk e = true → 6 ≤ p.length → getUser users e = none →
      authorize emailOk bc users creds = { result := none, dbLookups := [e] }) := by
  constructor
  · intro h
    unfold authorize
    cases hem : creds.email with
    | none => rfl
    | some e =>
      cases hpw : creds.password with
      | none => rfl
      | some p =>
        have hcond : ¬ (emailOk e ∧ 6 ≤ p.length) := by
          rcases h with h | h | h | h
          · rw [hem] at h
            cases h
          · rw [hpw] at h
            cases h
          · rintro ⟨h1, -⟩
            rw [h e hem] at h1
            cases h1
          · rintro ⟨-, h2⟩
            exact absurd h2 (not_le.mpr (h p hpw))
        show (if emailOk e ∧ 6 ≤ p.length then _ else _ : AuthorizeOutcome) =
          { result := none, dbLookups := [] }
        rw [if_neg hcond]
  · intro e p hem hpw hok hlen hgu
    unfold authorize
    rw [hem, hpw]
    show (if emailOk e ∧ 6 ≤ p.length then _ else _ : AuthorizeOutcome) =
      { result := none, dbLookups := [e] }
    rw [if_pos ⟨by rw [hok], hlen⟩, hgu]

/-- Witness for C10: a rejected email yields null with no lookup; a valid but
unknown email yields null after one lookup. -/
theorem C10_authorize_witness :
    authorize (fun _ => false) (fun _ _ => true) []
        { email := some "nota", password := some "longenough" } =
      { result := none, dbLookups := [] } ∧
    authorize (fun _ => true) (fun _ _ => true) []
        { email := some "ghost@nextmail.com", password := some "longenough" } =
      { result := none, dbLookups := ["ghost@nextmail.com"] } :=
  ⟨(C10_authorize (fun _ => false) (fun _ _ => true) []
        { email := some "nota", password := some "longenough" }).1
      (Or.inr (Or.inr (Or.inl (fun _ _ => rfl)))),
   (C10_authorize (fun _ => true) (fun _ _ => true) []
        { email := some "ghost@nextmail.com", password := some "longenough" }).2
      "ghost@nextmail.com" "longenough" rfl rfl rfl (by decide) rfl⟩

end NextDashboard
